import Mathlib

/-
Verification of `src/disk.py`: the `final_disk_speed` function computing the
terminal linear speed of a uniform disk rolling without slipping down an
inclined slope, via energy conservation. The Python floats are modelled by
real numbers; `np.radians`, `np.cos` and `np.sqrt` by their real counterparts.
-/

noncomputable section

namespace Disk

/-- Gravity constant from the source: `g = 9.81`. -/
def g : ℝ := 9.81

/-- Degree-to-radian conversion, `theta = np.radians(incline)`,
i.e. `incline * pi / 180`. -/
def theta (incline : ℝ) : ℝ := incline * Real.pi / 180

/-- The source line
`energy_available = g * height - friction * g * np.cos(theta) * length`. -/
def energy_available (height length incline friction : ℝ) : ℝ :=
  g * height - friction * g * Real.cos (theta incline) * length

/-- Shallow embedding of `final_disk_speed(height, length, incline, mass,
friction, radius)` from `src/disk.py`: if `energy_available <= 0` return `0.0`,
otherwise return `sqrt((4.0/3.0) * energy_available)`. `mass` and `radius`
are accepted but unused, as in the source. -/
def final_disk_speed (height length incline mass friction radius : ℝ) : ℝ :=
  if energy_available height length incline friction ≤ 0 then 0
  else Real.sqrt ((4 / 3) * energy_available height length incline friction)

end Disk

open Disk

/-- Helper: two-sided bounds on a real square root from bounds on the squares. -/
lemma sqrt_bounds (a b x : ℝ) (ha : 0 ≤ a) (hb : 0 ≤ b)
    (h1 : a ^ 2 ≤ x) (h2 : x ≤ b ^ 2) :
    a ≤ Real.sqrt x ∧ Real.sqrt x ≤ b := by
  constructor
  · rw [← Real.sqrt_sq ha]
    exact Real.sqrt_le_sqrt h1
  · rw [← Real.sqrt_sq hb]
    exact Real.sqrt_le_sqrt h2

/-- Helper: in the frictionless case the energy term collapses to `g * height`. -/
lemma energy_frictionless (height length incline : ℝ) :
    energy_available height length incline 0 = 9.81 * height := by
  unfold energy_available g
  ring

/-- Helper: the frictionless result is `sqrt((4/3) * 9.81 * height)` for every
height (the clamped branch agrees because the real square root of a
non-positive number is `0`). -/
lemma frictionless_eq (height length incline mass radius : ℝ) :
    final_disk_speed height length incline mass 0 radius =
      Real.sqrt ((4 / 3) * (9.81 * height)) := by
  unfold final_disk_speed
  rw [energy_frictionless]
  split_ifs with h0
  · rw [eq_comm, Real.sqrt_eq_zero']
    nlinarith
  · rfl

/-- C1: whenever the computed specific available energy
`e = 9.81*height - friction*9.81*cos(incline*pi/180)*length` is strictly
positive, `final_disk_speed` returns `sqrt((4/3) * e)`. -/
theorem final_disk_speed_formula (height length incline mass friction radius : ℝ)
    (hpos : 0 < energy_available height length incline friction) :
    final_disk_speed height length incline mass friction radius =
      Real.sqrt ((4 / 3) * energy_available height length incline friction) := by
  unfold final_disk_speed
  rw [if_neg (not_le.mpr hpos)]

/-- Witness for C1 at `height=1, length=0, incline=0, mass=1, friction=0,
radius=1`, where the available energy is `9.81 > 0`. -/
theorem final_disk_speed_formula_witness :
    final_disk_speed 1 0 0 1 0 1 =
      Real.sqrt ((4 / 3) * energy_available 1 0 0 0) :=
  final_disk_speed_formula 1 0 0 1 0 1
    (by norm_num [energy_available, g, theta])

/-- C2: the clamp condition `e ≤ 0` is equivalent to
`friction * cos(incline_in_radians) * length ≥ height`, and whenever it holds
`final_disk_speed` returns exactly `0`. -/
theorem final_disk_speed_clamp (height length incline mass friction radius : ℝ) :
    (energy_available height length incline friction ≤ 0 ↔
      friction * Real.cos (theta incline) * length ≥ height) ∧
    (energy_available height length incline friction ≤ 0 →
      final_disk_speed height length incline mass friction radius = 0) := by
  constructor
  · unfold energy_available g
    constructor <;> intro h <;> nlinarith
  · intro h
    unfold final_disk_speed
    rw [if_pos h]

/-- Witness for C2 at `height=0, length=1, incline=0, mass=1, friction=1,
radius=1`, where the available energy is `-9.81 ≤ 0` and the result is `0`. -/
theorem final_disk_speed_clamp_witness :
    final_disk_speed 0 1 0 1 1 1 = 0 :=
  (final_disk_speed_clamp 0 1 0 1 1 1).2
    (by norm_num [energy_available, g, theta])

/-- C3: with `friction = 0` the result equals `sqrt((4/3) * 9.81 * height)`,
is independent of `length` and `incline` (and of `mass` and `radius`), and at
`height = 10` it is within `0.01` of `11.4316`. -/
theorem final_disk_speed_frictionless
    (height length incline mass radius length' incline' mass' radius' : ℝ) :
    final_disk_speed height length incline mass 0 radius =
      Real.sqrt ((4 / 3) * (9.81 * height)) ∧
    final_disk_speed height length incline mass 0 radius =
      final_disk_speed height length' incline' mass' 0 radius' ∧
    |final_disk_speed 10 length incline mass 0 radius - 11.4316| ≤ 0.01 := by
  refine ⟨frictionless_eq _ _ _ _ _, ?_, ?_⟩
  · rw [frictionless_eq, frictionless_eq]
  · rw [frictionless_eq]
    have h1 : (4 / 3 : ℝ) * (9.81 * 10) = 130.8 := by norm_num
    rw [h1]
    have hb := sqrt_bounds 11.4216 11.4416 130.8
      (by norm_num) (by norm_num) (by norm_num) (by norm_num)
    rw [abs_le]
    constructor <;> nlinarith [hb.1, hb.2]

/-- C4 counterexample: at `height=10, length=20, incline=30, mass=5,
friction=0, radius=0.5` the result is `sqrt(130.8) ≈ 11.4368`, which is NOT
within `0.01` of `11.48`. -/
theorem scenarioA_not_within_001 :
    ¬ |final_disk_speed 10 20 30 5 0 0.5 - 11.48| ≤ 0.01 := by
  rw [frictionless_eq]
  have h1 : (4 / 3 : ℝ) * (9.81 * 10) = 130.8 := by norm_num
  rw [h1]
  have hb := sqrt_bounds 11.4216 11.4416 130.8
    (by norm_num) (by norm_num) (by norm_num) (by norm_num)
  rw [abs_le]
  intro h
  nlinarith [hb.2, h.1]

/-- C4 amended: at `height=10, length=20, incline=30, mass=5, friction=0,
radius=0.5` the result is within `0.05` of `11.48`. -/
theorem scenarioA_within_005 :
    |final_disk_speed 10 20 30 5 0 0.5 - 11.48| ≤ 0.05 := by
  rw [frictionless_eq]
  have h1 : (4 / 3 : ℝ) * (9.81 * 10) = 130.8 := by norm_num
  rw [h1]
  have hb := sqrt_bounds 11.43 11.45 130.8
    (by norm_num) (by norm_num) (by norm_num) (by norm_num)
  rw [abs_le]
  constructor <;> nlinarith [hb.1, hb.2]

/-- C5: the result does not depend on `mass` and `radius`: two calls differing
only in those two arguments return equal values. -/
theorem final_disk_speed_mass_radius_invariant
    (height length incline friction mass₁ radius₁ mass₂ radius₂ : ℝ) :
    final_disk_speed height length incline mass₁ friction radius₁ =
      final_disk_speed height length incline mass₂ friction radius₂ := rfl

/-- C6: the result is always a defined non-negative real, and on every input
either the clamp branch returns `0` or the radicand `(4/3) * e` passed to the
square root is strictly positive, so the square root never sees a negative
radicand. -/
theorem final_disk_speed_nonneg (height length incline mass friction radius : ℝ) :
    0 ≤ final_disk_speed height length incline mass friction radius ∧
    (final_disk_speed height length incline mass friction radius = 0 ∨
      0 < (4 / 3) * energy_available height length incline friction) := by
  unfold final_disk_speed
  split_ifs with h0
  · exact ⟨le_refl 0, Or.inl rfl⟩
  · exact ⟨Real.sqrt_nonneg _, Or.inr (by nlinarith [not_le.mp h0])⟩

/-- Helper: the result is non-negative on every input. -/
lemma speed_nonneg (height length incline mass friction radius : ℝ) :
    0 ≤ final_disk_speed height length incline mass friction radius := by
  unfold final_disk_speed
  split_ifs
  · exact le_refl 0
  · exact Real.sqrt_nonneg _

/-- C7 counterexample: at `height=1, length=1, incline=180, mass=1, radius=1`
the result strictly increases when `friction` goes from `0` to `1`
(here `cos(theta) = -1`, so larger friction adds energy), refuting
unconditional monotonicity in `friction`. -/
theorem friction_mono_counterexample :
    final_disk_speed 1 1 180 1 0 1 < final_disk_speed 1 1 180 1 1 1 := by
  have hθ : Real.cos (theta 180) = -1 := by
    unfold theta
    rw [show (180 : ℝ) * Real.pi / 180 = Real.pi by ring, Real.cos_pi]
  have he0 : energy_available 1 1 180 0 = 9.81 := by
    rw [energy_frictionless]; norm_num
  have he1 : energy_available 1 1 180 1 = 19.62 := by
    unfold energy_available g
    rw [hθ]; norm_num
  unfold final_disk_speed
  rw [he0, he1, if_neg (by norm_num : ¬(9.81 : ℝ) ≤ 0),
    if_neg (by norm_num : ¬(19.62 : ℝ) ≤ 0)]
  exact Real.sqrt_lt_sqrt (by norm_num) (by norm_num)

/-- C7 amended: when `cos(incline * pi / 180) * length ≥ 0` (in particular for
the documented domain of non-negative lengths and inclines in `[0, 90]`
degrees), the result is non-increasing in `friction`, and once it is `0` it
stays `0` for larger friction. -/
theorem final_disk_speed_friction_mono
    (height length incline mass radius f₁ f₂ : ℝ)
    (hc : 0 ≤ Real.cos (theta incline) * length) (hf : f₁ ≤ f₂) :
    final_disk_speed height length incline mass f₂ radius ≤
      final_disk_speed height length incline mass f₁ radius ∧
    (final_disk_speed height length incline mass f₁ radius = 0 →
      final_disk_speed height length incline mass f₂ radius = 0) := by
  have he : energy_available height length incline f₂ ≤
      energy_available height length incline f₁ := by
    unfold energy_available g
    nlinarith [mul_nonneg (sub_nonneg.mpr hf) hc]
  have hmono : final_disk_speed height length incline mass f₂ radius ≤
      final_disk_speed height length incline mass f₁ radius := by
    unfold final_disk_speed
    split_ifs with h2 h1 h3
    · exact le_refl 0
    · exact Real.sqrt_nonneg _
    · exact absurd (le_trans he h3) h2
    · exact Real.sqrt_le_sqrt (by nlinarith)
  exact ⟨hmono, fun hz =>
    le_antisymm (hz ▸ hmono) (speed_nonneg height length incline mass f₂ radius)⟩

/-- Witness for the amended C7 at `height=1, length=1, incline=0, mass=1,
radius=1`, with friction going from `0` to `1`. -/
theorem final_disk_speed_friction_mono_witness :
    final_disk_speed 1 1 0 1 1 1 ≤ final_disk_speed 1 1 0 1 0 1 ∧
    (final_disk_speed 1 1 0 1 0 1 = 0 → final_disk_speed 1 1 0 1 1 1 = 0) :=
  final_disk_speed_friction_mono 1 1 0 1 1 0 1
    (by rw [show theta 0 = 0 by unfold theta; ring, Real.cos_zero]; norm_num)
    (by norm_num)

/-- C8: with the other parameters fixed and strictly positive available energy
at the smaller height, the result is strictly increasing in `height`. -/
theorem final_disk_speed_height_strict_mono
    (length incline mass friction radius h₁ h₂ : ℝ)
    (he : 0 < energy_available h₁ length incline friction) (hh : h₁ < h₂) :
    final_disk_speed h₁ length incline mass friction radius <
      final_disk_speed h₂ length incline mass friction radius := by
  have he2 : energy_available h₁ length incline friction <
      energy_available h₂ length incline friction := by
    unfold energy_available g
    nlinarith
  unfold final_disk_speed
  rw [if_neg (not_le.mpr he), if_neg (not_le.mpr (lt_trans he he2))]
  exact Real.sqrt_lt_sqrt (by nlinarith) (by nlinarith)

/-- Witness for C8 at `length=0, incline=0, mass=1, friction=0, radius=1`,
heights `1 < 2`, where the energy at height `1` is `9.81 > 0`. -/
theorem final_disk_speed_height_strict_mono_witness :
    final_disk_speed 1 0 0 1 0 1 < final_disk_speed 2 0 0 1 0 1 :=
  final_disk_speed_height_strict_mono 0 0 1 0 1 1 2
    (by norm_num [energy_available, g, theta]) (by norm_num)

/-- C9: at `height=8, length=12, incline=45, mass=3, friction=0.3, radius=0.4`
the available energy is about `53.50` and the result is within `0.01` of
`8.44` m/s. -/
theorem scenarioB_within_001 :
    |final_disk_speed 8 12 45 3 0.3 0.4 - 8.44| ≤ 0.01 := by
  have hθ : Real.cos (theta 45) = Real.sqrt 2 / 2 := by
    unfold theta
    rw [show (45 : ℝ) * Real.pi / 180 = Real.pi / 4 by ring, Real.cos_pi_div_four]
  have hs2 := sqrt_bounds 1.414 1.415 2
    (by norm_num) (by norm_num) (by norm_num) (by norm_num)
  have helo : 53.49 ≤ energy_available 8 12 45 0.3 := by
    unfold energy_available g
    rw [hθ]
    nlinarith [hs2.2]
  have hehi : energy_available 8 12 45 0.3 ≤ 53.52 := by
    unfold energy_available g
    rw [hθ]
    nlinarith [hs2.1]
  have hepos : 0 < energy_available 8 12 45 0.3 := by linarith
  unfold final_disk_speed
  rw [if_neg (not_le.mpr hepos)]
  have hb := sqrt_bounds 8.43 8.45 ((4 / 3) * energy_available 8 12 45 0.3)
    (by norm_num) (by norm_num) (by nlinarith) (by nlinarith)
  rw [abs_le]
  constructor <;> nlinarith [hb.1, hb.2]

/-- C10: the result depends on the incline only through its cosine, so calling
with `incline` and `-incline` (all other arguments equal) gives the same
value; negative angles are processed identically to their reflections. -/
theorem final_disk_speed_incline_even
    (height length incline mass friction radius : ℝ) :
    final_disk_speed height length incline mass friction radius =
      final_disk_speed height length (-incline) mass friction radius := by
  have hc : Real.cos (theta (-incline)) = Real.cos (theta incline) := by
    unfold theta
    rw [show -incline * Real.pi / 180 = -(incline * Real.pi / 180) by ring,
      Real.cos_neg]
  unfold final_disk_speed energy_available
  rw [hc]
